import Mathlib

/-!
Verification of the world-simulator repository.

Shallow embedding of the simulation core of `src/complete.py` (the canonical
draft: climate state machine, tile resource economy, entity decision/action
cycle, world tick) and of the movement step of `src/combined.py`.

Python floats are modelled as rationals (ℚ); every call to the global random
source is modelled as an explicit parameter (a draw, or an oracle of draws),
so each stochastic function becomes a deterministic function of its draws.
Python code that can raise (list indexing in `World.get_tile`) returns
`Option`.
-/

namespace WorldSim

/-- `BiomeType` enum (src/complete.py lines 10-14). -/
inductive BiomeType where
  | FOREST
  | PLAINS
  | MOUNTAIN
  | DESERT
deriving DecidableEq, Repr

/-- `ResourceType` enum (src/complete.py lines 16-20). -/
inductive ResourceType where
  | FOOD
  | WOOD
  | STONE
  | WATER
deriving DecidableEq, Repr

/-- `ActivityType` enum (src/complete.py lines 22-27). -/
inductive ActivityType where
  | GATHERING
  | RESTING
  | SOCIALIZING
  | BUILDING
  | SEEKING_SHELTER
deriving DecidableEq, Repr

/-- `Season` enum (src/complete.py lines 29-33). -/
inductive Season where
  | SPRING
  | SUMMER
  | AUTUMN
  | WINTER
deriving DecidableEq, Repr

/-- `WeatherType` enum (src/complete.py lines 35-41). -/
inductive WeatherType where
  | CLEAR
  | CLOUDY
  | RAIN
  | STORM
  | SNOW
  | HEATWAVE
deriving DecidableEq, Repr

/-- `WeatherState` dataclass (src/complete.py lines 43-50).  Floats become
rationals; `duration` is the Python int counting ticks the weather lasts. -/
structure WeatherState where
  type : WeatherType
  temperature : ℚ
  humidity : ℚ
  wind_speed : ℚ
  precipitation : ℚ
  duration : ℤ
deriving DecidableEq, Repr

/-- `WeatherState.is_dangerous` property (src/complete.py lines 52-59):
`type in {STORM, HEATWAVE} or temperature < -10 or temperature > 40 or
wind_speed > 20`.  The same disjunction appears in src/combined.py
lines 59-64 (written in the other order, which is equivalent). -/
def WeatherState.is_dangerous (w : WeatherState) : Prop :=
  w.type = WeatherType.STORM ∨ w.type = WeatherType.HEATWAVE ∨
    w.temperature < -10 ∨ w.temperature > 40 ∨ w.wind_speed > 20

instance (w : WeatherState) : Decidable w.is_dangerous := by
  unfold WeatherState.is_dangerous
  infer_instance

/-- `list(Season)` in declaration order, as used by
`Season(list(Season)[self.day_of_year // 90])` (src/complete.py line 147). -/
def seasonList : List Season :=
  [Season.SPRING, Season.SUMMER, Season.AUTUMN, Season.WINTER]

/-- The season computed by src/complete.py line 147 from a day-of-year.
In the program the index `d / 90` is always `< 4` because `d` has just been
reduced mod 360; the `getD` default is never used there. -/
def seasonOf (d : ℕ) : Season :=
  seasonList.getD (d / 90) Season.WINTER

/-- `Climate` state (src/complete.py lines 61-67).  The randomly generated
weather of `_generate_weather` is abstracted: `Climate.update` receives the
freshly sampled `WeatherState` as an explicit argument. -/
structure Climate where
  base_temperature : ℚ
  current_season : Season
  day_of_year : ℕ
  current_weather : WeatherState
  weather_duration : ℤ
deriving Repr

/-- `Climate.update` (src/complete.py lines 144-154): advance the day mod
360, recompute the season from the new day, and when the current weather has
exhausted its duration replace it by the freshly generated one (`nw`). -/
def Climate.update (c : Climate) (nw : WeatherState) : Climate :=
  let d := (c.day_of_year + 1) % 360
  let s := seasonOf d
  if c.weather_duration + 1 ≥ c.current_weather.duration then
    { c with day_of_year := d, current_season := s,
             current_weather := nw, weather_duration := 0 }
  else
    { c with day_of_year := d, current_season := s,
             weather_duration := c.weather_duration + 1 }

lemma seasonOf_piecewise (d : ℕ) (h : d < 360) :
    seasonOf d =
      (if d < 90 then Season.SPRING
       else if d < 180 then Season.SUMMER
       else if d < 270 then Season.AUTUMN
       else Season.WINTER) := by
  have h4 : d / 90 = 0 ∨ d / 90 = 1 ∨ d / 90 = 2 ∨ d / 90 = 3 := by omega
  rcases h4 with h0 | h1 | h2 | h3
  · have hd : d < 90 := by omega
    simp [seasonOf, seasonList, h0, hd]
  · have hd : ¬ d < 90 := by omega
    have hd2 : d < 180 := by omega
    simp [seasonOf, seasonList, h1, hd, hd2]
  · have hd : ¬ d < 90 := by omega
    have hd2 : ¬ d < 180 := by omega
    have hd3 : d < 270 := by omega
    simp [seasonOf, seasonList, h2, hd, hd2, hd3]
  · have hd : ¬ d < 90 := by omega
    have hd2 : ¬ d < 180 := by omega
    have hd3 : ¬ d < 270 := by omega
    simp [seasonOf, seasonList, h3, hd, hd2, hd3]

/-- `Position` dataclass (src/complete.py lines 156-162). -/
structure Position where
  x : ℤ
  y : ℤ
deriving DecidableEq, Repr

/-- Squared Euclidean distance between positions.  `Position.distance_to`
(src/complete.py line 162) returns `sqrt(dx² + dy²)`; the program only ever
compares it against the radius 3, and `sqrt(d2) ≤ 3 ↔ d2 ≤ 9`, so the
comparison is embedded via the squared distance over ℤ. -/
def Position.distSq (p q : Position) : ℤ :=
  (p.x - q.x) ^ 2 + (p.y - q.y) ^ 2

/-- `Personality` dataclass (src/complete.py lines 164-169), four traits
drawn uniformly from [0,1] at creation. -/
structure Personality where
  sociability : ℚ
  industriousness : ℚ
  curiosity : ℚ
  caution : ℚ
deriving DecidableEq, Repr

/-- `Entity` mutable state (src/complete.py lines 180-192).  `inventory` is
the dict populated for every `ResourceType` (zero default); `relationships`
is the Python dict in insertion order (keys unique), modelled as an
association list. -/
structure Entity where
  name : String
  position : Position
  personality : Personality
  energy : ℚ
  hunger : ℚ
  social_need : ℚ
  temperature : ℚ
  inventory : ResourceType → ℚ
  relationships : List (String × ℚ)
  current_activity : Option ActivityType
  has_shelter : Bool

/-- `Tile` (src/complete.py lines 284-287): a biome and a resource stock
populated for every `ResourceType`. -/
structure Tile where
  biome : BiomeType
  resources : ResourceType → ℚ

/-- `Tile._initialize_resources` (src/complete.py lines 289-305): the
biome-specific starting stocks, 0 for every type not listed. -/
def initialResources : BiomeType → ResourceType → ℚ
  | BiomeType.FOREST, ResourceType.WOOD => 100
  | BiomeType.FOREST, ResourceType.FOOD => 50
  | BiomeType.FOREST, ResourceType.WATER => 30
  | BiomeType.PLAINS, ResourceType.FOOD => 80
  | BiomeType.PLAINS, ResourceType.WATER => 20
  | BiomeType.MOUNTAIN, ResourceType.STONE => 100
  | BiomeType.MOUNTAIN, ResourceType.WATER => 10
  | BiomeType.DESERT, ResourceType.STONE => 30
  | _, _ => 0

/-- `Tile.__init__` (src/complete.py lines 285-287). -/
def Tile.new (b : BiomeType) : Tile :=
  { biome := b, resources := initialResources b }

/-- `Tile.gather_resources` (src/complete.py lines 307-314).  One uniform
draw from [0,1) per resource type is supplied by `draws`.  For each resource
with positive stock, `min(draw * 10 * weather_modifier, stock)` is removed
and recorded in the returned mapping; resources with non-positive stock are
untouched and absent from the Python result dict, modelled here as a 0
entry. -/
def Tile.gather_resources (t : Tile) (wm : ℚ) (draws : ResourceType → ℚ) :
    Tile × (ResourceType → ℚ) :=
  let g : ResourceType → ℚ := fun r =>
    if 0 < t.resources r then min (draws r * 10 * wm) (t.resources r) else 0
  ({ t with resources := fun r => t.resources r - g r }, g)

/-- Season regeneration multipliers (src/complete.py lines 319-324). -/
def regenSeasonMod : Season → ℚ
  | Season.SPRING => 6/5
  | Season.SUMMER => 1
  | Season.AUTUMN => 4/5
  | Season.WINTER => 1/2

/-- Weather regeneration multipliers (src/complete.py lines 326-333). -/
def regenWeatherMod : WeatherType → ℚ
  | WeatherType.CLEAR => 1
  | WeatherType.CLOUDY => 9/10
  | WeatherType.RAIN => 6/5
  | WeatherType.STORM => 1/2
  | WeatherType.SNOW => 3/10
  | WeatherType.HEATWAVE => 7/10

/-- `Tile.regenerate_resources` (src/complete.py lines 316-341): each
resource below its biome maximum grows by `draw * 5 * modifier`, clamped at
the maximum; one uniform draw from [0,1) per resource type. -/
def Tile.regenerate_resources (t : Tile) (weather : WeatherState)
    (season : Season) (draws : ResourceType → ℚ) : Tile :=
  let base := initialResources t.biome
  let modifier := regenSeasonMod season * regenWeatherMod weather.type
  { t with
    resources := fun r =>
      if t.resources r < base r then
        min (base r) (t.resources r + draws r * 5 * modifier)
      else t.resources r }

/-- `Entity._get_weather_modifier` (src/complete.py lines 271-278):
dangerous → 0.5, else rain/snow → 0.7, else cloudy → 0.9, else 1.0. -/
def weatherModifier (w : WeatherState) : ℚ :=
  if w.is_dangerous then 1/2
  else if w.type = WeatherType.RAIN ∨ w.type = WeatherType.SNOW then 7/10
  else if w.type = WeatherType.CLOUDY then 9/10
  else 1

/-- `Entity._handle_weather_effects` (src/complete.py lines 204-217). -/
def Entity.handle_weather_effects (e : Entity) (w : WeatherState) : Entity :=
  let td := w.temperature - 20
  let e1 := { e with temperature := 37 + td * (1/10) }
  let e2 :=
    if |td| > 10 then { e1 with energy := e1.energy - |td| * (1/10) } else e1
  match w.type with
  | WeatherType.STORM => { e2 with energy := e2.energy - 2 }
  | WeatherType.SNOW => { e2 with energy := e2.energy - 3/2 }
  | WeatherType.HEATWAVE =>
      { e2 with hunger := e2.hunger + 1, energy := e2.energy - 3/2 }
  | _ => e2

/-- Needs decay in `Entity.update` (src/complete.py lines 197-199). -/
def Entity.needs_decay (e : Entity) : Entity :=
  { e with
    energy := e.energy - 1,
    hunger := e.hunger + 1/2,
    social_need := e.social_need + e.personality.sociability * (1/2) }

/-- `Entity._choose_activity` (src/complete.py lines 219-237), with the two
uniform draws from [0,1) (the caution draw of line 222 and the
industriousness draw of line 235) passed explicitly. -/
def choose_activity (w : WeatherState) (e : Entity) (d1 d2 : ℚ) :
    ActivityType :=
  if w.is_dangerous ∧ d1 < e.personality.caution then
    ActivityType.SEEKING_SHELTER
  else if e.energy < 30 then ActivityType.RESTING
  else if e.hunger > 70 then ActivityType.GATHERING
  else if e.social_need > 80 then ActivityType.SOCIALIZING
  else if d2 < e.personality.industriousness then ActivityType.BUILDING
  else ActivityType.GATHERING

/-- RESTING branch of `Entity._perform_activity`
(src/complete.py lines 243-247). -/
def perform_resting (e : Entity) (w : WeatherState) : Entity :=
  { e with
    energy :=
      min 100 (e.energy + (if e.has_shelter then 10 else 5) * weatherModifier w) }

/-- GATHERING branch of `Entity._perform_activity`
(src/complete.py lines 249-255): merge the gathered mapping into the
inventory; gathered FOOD reduces hunger by `amount * 10`, floored at 0 (the
hunger line runs only when FOOD was in the gathered dict, i.e. had positive
stock). -/
def perform_gathering (e : Entity) (tile : Tile) (wm : ℚ)
    (draws : ResourceType → ℚ) : Entity × Tile :=
  let p := tile.gather_resources wm draws
  let inv := fun r => e.inventory r + p.2 r
  let hg :=
    if 0 < tile.resources ResourceType.FOOD then
      max 0 (e.hunger - p.2 ResourceType.FOOD * 10)
    else e.hunger
  ({ e with inventory := inv, hunger := hg }, p.1)

/-- `rel[name] = rel.get(name, 0) + delta` on a Python dict in insertion
order (src/complete.py line 263): update the existing entry in place, or
append a new one. -/
def updateRel : List (String × ℚ) → String → ℚ → List (String × ℚ)
  | [], n, v => [(n, v)]
  | (k, x) :: rest, n, v =>
      if k = n then (k, x + v) :: rest else (k, x) :: updateRel rest n v

/-- `Entity._calculate_compatibility` (src/complete.py lines 280-282). -/
def Entity.compatibility (e o : Entity) : ℚ :=
  1 - |e.personality.sociability - o.personality.sociability|

/-- SOCIALIZING branch of `Entity._perform_activity`
(src/complete.py lines 257-264): when the weather is safe or the entity is
sheltered, for each nearby entity add `compatibility * 0.1 *
weather_modifier` to the relationship keyed by that entity's name and drop
social need by 10 (floored at 0, once per partner). -/
def perform_socializing (w : WeatherState) (nearby : List Entity)
    (e : Entity) : Entity :=
  if ¬ w.is_dangerous ∨ e.has_shelter = true then
    nearby.foldl
      (fun acc other =>
        { acc with
          relationships :=
            updateRel acc.relationships other.name
              (acc.compatibility other * (1/10) * weatherModifier w),
          social_need := max 0 (acc.social_need - 10) })
      e
  else e

/-- SEEKING_SHELTER branch of `Entity._perform_activity`
(src/complete.py lines 266-269): build shelter for 10 WOOD when unsheltered
and holding enough wood; otherwise do nothing. -/
def perform_seeking_shelter (e : Entity) : Entity :=
  if e.has_shelter = false ∧ 10 ≤ e.inventory ResourceType.WOOD then
    { e with
      has_shelter := true,
      inventory := fun r =>
        if r = ResourceType.WOOD then e.inventory r - 10 else e.inventory r }
  else e

/-- `World` state (src/complete.py lines 343-350): grid is row-major,
`height` rows of `width` tiles. -/
structure World where
  width : ℤ
  height : ℤ
  entities : List Entity
  grid : List (List Tile)
  time : ℤ
  climate : Climate

/-- `World.__init__` / `_generate_world` (src/complete.py lines 344-357):
`height` rows of `width` randomly assigned biomes (the biome oracle `bo`
stands for `random.choice(list(BiomeType))` at row i, column j); a Python
`range` over a non-positive bound is empty, hence `Int.toNat`.  The randomly
initialized `Climate()` is supplied as `c0`. -/
def World.new (w h : ℤ) (bo : ℕ → ℕ → BiomeType) (c0 : Climate) : World :=
  { width := w, height := h, entities := [],
    grid :=
      (List.range h.toNat).map fun i =>
        (List.range w.toNat).map fun j => Tile.new (bo i j),
    time := 0, climate := c0 }

/-- `World.add_entity` (src/complete.py lines 359-360): unconditionally
append, with no validation of any kind (in particular no name-uniqueness
check). -/
def World.add_entity (w : World) (e : Entity) : World :=
  { w with entities := w.entities ++ [e] }

/-- The coordinate clamp of `World.get_tile` (src/complete.py lines
363-364): `max(0, min(c, bound - 1))`. -/
def clampIdx (c bound : ℤ) : ℤ :=
  max 0 (min c (bound - 1))

/-- `self.grid[y][x]` as a fallible lookup: `none` models the `IndexError`
Python raises when an index is out of range.  (After the clamp both indices
are ≥ 0, so Python's negative-index wraparound never applies.) -/
def gridGet (grid : List (List Tile)) (y x : ℕ) : Option Tile :=
  (grid.get? y).bind fun row => row.get? x

/-- In-place mutation of the tile object returned by `get_tile`
(aliased into the grid), as a functional update at the clamped indices. -/
def gridSet (grid : List (List Tile)) (y x : ℕ) (t : Tile) :
    List (List Tile) :=
  grid.set y ((grid.getD y []).set x t)

/-- `World.get_tile` (src/complete.py lines 362-365). -/
def World.get_tile (w : World) (p : Position) : Option Tile :=
  gridGet w.grid (clampIdx p.y w.height).toNat (clampIdx p.x w.width).toNat

/-- `World.get_nearby_entities` (src/complete.py lines 367-371), with the
identity-based self-exclusion handled by the caller (the candidate list
`others` excludes the entity being updated). -/
def nearbyEntities (others : List Entity) (e : Entity) : List Entity :=
  others.filter fun o => e.position.distSq o.position ≤ 9

/-- The random draws one `Entity.update` call consumes: the caution draw and
the industriousness draw of `_choose_activity`, and one gather draw per
resource type. -/
structure EntityRand where
  cautionDraw : ℚ
  industryDraw : ℚ
  gatherDraws : ResourceType → ℚ

/-- All random inputs of one `World.update` tick: the weather that
`_generate_weather` would produce if the current weather expires, per-entity
draws (by position in the entity list), and per-tile regeneration draws (by
row and column). -/
structure Oracle where
  newWeather : WeatherState
  entityRand : ℕ → EntityRand
  regenDraws : ℕ → ℕ → ResourceType → ℚ

/-- `Entity.update` (src/complete.py lines 194-202) together with
`_perform_activity` (lines 239-269): weather effects, needs decay, activity
selection, then activity execution.  `others` is the world's entity list
without this entity (identity exclusion of `get_nearby_entities`); the grid
is threaded because GATHERING mutates the tile under the entity.  The only
fallible step is the `grid[y][x]` lookup inside `get_tile`. -/
def Entity.update (W H : ℤ) (weather : WeatherState) (others : List Entity)
    (grid : List (List Tile)) (e : Entity) (r : EntityRand) :
    Option (Entity × List (List Tile)) :=
  let e1 := (e.handle_weather_effects weather).needs_decay
  let act := choose_activity weather e1 r.cautionDraw r.industryDraw
  let e2 := { e1 with current_activity := some act }
  match act with
  | ActivityType.RESTING => some (perform_resting e2 weather, grid)
  | ActivityType.GATHERING =>
      let y := (clampIdx e2.position.y H).toNat
      let x := (clampIdx e2.position.x W).toNat
      match gridGet grid y x with
      | none => none
      | some tile =>
          let p := perform_gathering e2 tile (weatherModifier weather)
            r.gatherDraws
          some (p.1, gridSet grid y x p.2)
  | ActivityType.SOCIALIZING =>
      some (perform_socializing weather (nearbyEntities others e2) e2, grid)
  | ActivityType.SEEKING_SHELTER => some (perform_seeking_shelter e2, grid)
  | ActivityType.BUILDING => some (e2, grid)

/-- The entity loop of `World.update` (src/complete.py lines 377-378):
entities are updated strictly in list order, each seeing the mutations of
the earlier ones (`done` are already updated, `todo` not yet). -/
def updateEntities (W H : ℤ) (weather : WeatherState)
    (rand : ℕ → EntityRand) :
    ℕ → List Entity → List Entity → List (List Tile) →
      Option (List Entity × List (List Tile))
  | _, done, [], grid => some (done, grid)
  | i, done, e :: todo, grid =>
      match e.update W H weather (done ++ todo) grid (rand i) with
      | none => none
      | some (e2, grid2) =>
          updateEntities W H weather rand (i + 1) (done ++ [e2]) todo grid2

/-- One row of the periodic regeneration sweep
(src/complete.py lines 380-383). -/
def regenRow (weather : WeatherState) (season : Season)
    (ds : ℕ → ResourceType → ℚ) : ℕ → List Tile → List Tile
  | _, [] => []
  | j, t :: ts =>
      t.regenerate_resources weather season (ds j) ::
        regenRow weather season ds (j + 1) ts

/-- The periodic regeneration sweep over the whole grid
(src/complete.py lines 380-383). -/
def regenAll (weather : WeatherState) (season : Season)
    (ds : ℕ → ℕ → ResourceType → ℚ) : ℕ → List (List Tile) →
      List (List Tile)
  | _, [] => []
  | i, row :: rows =>
      regenRow weather season (ds i) 0 row ::
        regenAll weather season ds (i + 1) rows

/-- `World.update` (src/complete.py lines 373-383): advance time, advance
the climate, update every entity in list order, and every 10th tick
regenerate every tile with the current weather and season. -/
def World.update (w : World) (o : Oracle) : Option World :=
  let t2 := w.time + 1
  let c2 := w.climate.update o.newWeather
  match updateEntities w.width w.height c2.current_weather o.entityRand
      0 [] w.entities w.grid with
  | none => none
  | some (ents, g) =>
      let g2 :=
        if t2 % 10 = 0 then
          regenAll c2.current_weather c2.current_season o.regenDraws 0 g
        else g
      some { width := w.width, height := w.height, entities := ents,
             grid := g2, time := t2, climate := c2 }

/-- Grid well-formedness: `height` rows, each of `width` tiles, with
positive dimensions — exactly the shape `World.__init__` produces for
positive arguments. -/
def GridWF (grid : List (List Tile)) (W H : ℤ) : Prop :=
  grid.length = H.toNat ∧ ∀ row ∈ grid, row.length = W.toNat

/-- A world whose grid matches its positive dimensions. -/
def World.WF (w : World) : Prop :=
  1 ≤ w.width ∧ 1 ≤ w.height ∧ GridWF w.grid w.width w.height

namespace Combined

/-- The per-entity movement step of `World.update` in src/combined.py lines
291-294: with probability 0.3 (`draw < 0.3` for a uniform draw from [0,1))
the entity moves by `randint(-1, 1)` in each axis, the result clamped into
`[0, width-1] × [0, height-1]`; otherwise the position is unchanged.
`Entity.update` in src/combined.py never writes `position`, so this block
is the only position mutation of a tick. -/
def moveStep (width height : ℤ) (p : Position) (draw : ℚ) (dx dy : ℤ) :
    Position :=
  if draw < 3/10 then
    { x := max 0 (min (width - 1) (p.x + dx)),
      y := max 0 (min (height - 1) (p.y + dy)) }
  else p

end Combined

/-- A single gather or regenerate step applied to a tile, with its random
draws and parameters. -/
inductive TileOp where
  | gatherOp (draws : ResourceType → ℚ) (wm : ℚ)
  | regenOp (draws : ResourceType → ℚ) (weather : WeatherState)
      (season : Season)

/-- Apply one `TileOp` to a tile. -/
def applyOp (t : Tile) : TileOp → Tile
  | TileOp.gatherOp draws wm => (t.gather_resources wm draws).1
  | TileOp.regenOp draws weather season =>
      t.regenerate_resources weather season draws

/-- Apply a finite sequence of gather/regenerate steps, oldest first. -/
def applyOps (ops : List TileOp) (t : Tile) : Tile :=
  ops.foldl applyOp t

/-- The draws of an op are uniform draws from [0,1) and the gather
weather modifier is non-negative (the setting of the claims: `random.random()`
draws and `weather_modifier ≥ 0`); only the lower bounds are needed. -/
def ValidOp : TileOp → Prop
  | TileOp.gatherOp draws wm => 0 ≤ wm ∧ ∀ r, 0 ≤ draws r
  | TileOp.regenOp draws _ _ => ∀ r, 0 ≤ draws r

/-- Every op in the sequence is valid. -/
def ValidOps (ops : List TileOp) : Prop :=
  ∀ op ∈ ops, ValidOp op

/-- Benign clear weather used as a concrete test value. -/
def testWeather : WeatherState :=
  { type := WeatherType.CLEAR, temperature := 20, humidity := 1/2,
    wind_speed := 5, precipitation := 0, duration := 10 }

/-- Concrete climate used as a concrete test value. -/
def testClimate : Climate :=
  { base_temperature := 15, current_season := Season.SPRING,
    day_of_year := 0, current_weather := testWeather,
    weather_duration := 0 }

/-- Concrete entity used as a concrete test value. -/
def testEntity : Entity :=
  { name := "Alice", position := ⟨0, 0⟩,
    personality := ⟨1/2, 1/2, 1/2, 1/2⟩,
    energy := 100, hunger := 0, social_need := 0, temperature := 37,
    inventory := fun _ => 0, relationships := [],
    current_activity := none, has_shelter := false }

/-- C8: `is_dangerous` holds iff temperature < -10, or temperature > 40, or
wind speed > 20, or the type is STORM or HEATWAVE; it is false at the exact
boundaries temperature = -10 and wind speed = 20, and true for STORM
regardless of every other field. -/
theorem c8_is_dangerous_disjunction :
    (∀ w : WeatherState, w.is_dangerous ↔
       (w.temperature < -10 ∨ w.temperature > 40 ∨ w.wind_speed > 20 ∨
        w.type = WeatherType.STORM ∨ w.type = WeatherType.HEATWAVE)) ∧
    (∀ w : WeatherState, w.type = WeatherType.STORM → w.is_dangerous) ∧
    ¬ (WeatherState.mk WeatherType.CLEAR (-10) (1/2) 20 0 10).is_dangerous := by
  refine ⟨fun w => ?_, fun w h => Or.inl h, by decide⟩
  unfold WeatherState.is_dangerous
  tauto

/-- C8 witness: STORM weather with all boundary-benign other fields is
dangerous. -/
theorem c8_witness :
    (WeatherState.mk WeatherType.STORM 20 (1/2) 5 0 10).is_dangerous :=
  c8_is_dangerous_disjunction.2.1 _ rfl

/-- C4: after any `Climate.update` call from any state, the day of year is
the previous day plus one reduced mod 360 (hence in [0, 360)), and the
season is exactly the pure integer-division-by-90 function of the new day:
SPRING for 0-89, SUMMER for 90-179, AUTUMN for 180-269, WINTER for
270-359. -/
theorem c4_climate_day_season (c : Climate) (nw : WeatherState) :
    (c.update nw).day_of_year = (c.day_of_year + 1) % 360 ∧
    (c.update nw).day_of_year < 360 ∧
    (c.update nw).current_season = seasonOf (c.update nw).day_of_year ∧
    (c.update nw).current_season =
      (if (c.update nw).day_of_year < 90 then Season.SPRING
       else if (c.update nw).day_of_year < 180 then Season.SUMMER
       else if (c.update nw).day_of_year < 270 then Season.AUTUMN
       else Season.WINTER) := by
  have hlt : (c.day_of_year + 1) % 360 < 360 := Nat.mod_lt _ (by norm_num)
  have hday : (c.update nw).day_of_year = (c.day_of_year + 1) % 360 := by
    unfold Climate.update
    split <;> rfl
  have hseason :
      (c.update nw).current_season = seasonOf ((c.day_of_year + 1) % 360) := by
    unfold Climate.update
    split <;> rfl
  refine ⟨hday, ?_, ?_, ?_⟩
  · rw [hday]; exact hlt
  · rw [hseason, hday]
  · rw [hseason, hday, seasonOf_piecewise _ hlt]

/-- C3: a single `gather_resources` call is conservative: for every
resource, the old stock equals the new stock plus the gathered amount (0
when the resource was absent from the returned dict); for a resource with
positive stock the gathered amount is exactly
`min(draw * 10 * weather_modifier, stock)`, and it is non-negative whenever
the modifier and draw are non-negative. -/
theorem c3_gather_conservative (t : Tile) (wm : ℚ)
    (draws : ResourceType → ℚ) (r : ResourceType) :
    t.resources r =
        (t.gather_resources wm draws).1.resources r +
        (t.gather_resources wm draws).2 r ∧
    (0 < t.resources r →
       (t.gather_resources wm draws).2 r =
         min (draws r * 10 * wm) (t.resources r)) ∧
    (0 ≤ wm → 0 ≤ draws r → 0 ≤ (t.gather_resources wm draws).2 r) := by
  unfold Tile.gather_resources
  refine ⟨by ring, fun h => by simp [h], fun hw hd => ?_⟩
  simp only
  split_ifs with h
  · exact le_min (by positivity) (le_of_lt h)
  · exact le_refl 0

/-- C3 witness: a fresh forest tile gathered with modifier 1 and draw 1/2
loses a non-negative amount of wood. -/
theorem c3_witness :
    0 ≤ ((Tile.new BiomeType.FOREST).gather_resources 1 (fun _ => 1/2)).2
          ResourceType.WOOD :=
  (c3_gather_conservative (Tile.new BiomeType.FOREST) 1 (fun _ => 1/2)
    ResourceType.WOOD).2.2 (by norm_num) (by norm_num)

/-- C7: SEEKING_SHELTER execution: an unsheltered entity holding at least 10
WOOD gains shelter and pays exactly 10 WOOD (all other inventory entries
untouched); in every other case the entity is returned completely
unchanged (silent no-op, no error path). -/
theorem c7_seek_shelter_spec (e : Entity) :
    (e.has_shelter = false → 10 ≤ e.inventory ResourceType.WOOD →
       (perform_seeking_shelter e).has_shelter = true ∧
       (perform_seeking_shelter e).inventory ResourceType.WOOD =
         e.inventory ResourceType.WOOD - 10 ∧
       (∀ r, r ≠ ResourceType.WOOD →
          (perform_seeking_shelter e).inventory r = e.inventory r)) ∧
    (¬ (e.has_shelter = false ∧ 10 ≤ e.inventory ResourceType.WOOD) →
       perform_seeking_shelter e = e) := by
  unfold perform_seeking_shelter
  constructor
  · intro h1 h2
    rw [if_pos ⟨h1, h2⟩]
    refine ⟨rfl, by simp, fun r hr => by simp [hr]⟩
  · intro h
    rw [if_neg h]

/-- C7 witness: the fresh test entity has no wood, so seeking shelter is a
complete no-op on it. -/
theorem c7_witness : perform_seeking_shelter testEntity = testEntity :=
  (c7_seek_shelter_spec testEntity).2 (by decide)

/-- C1: `_choose_activity` follows the exact priority order, first match
wins: dangerous weather with a caution-passing draw selects
SEEKING_SHELTER; otherwise energy < 30 selects RESTING; otherwise
hunger > 70 selects GATHERING; otherwise social need > 80 selects
SOCIALIZING; otherwise the industriousness draw decides between BUILDING
and GATHERING.  (`Entity.update` stores the result in
`current_activity`, see `Entity.update`.) -/
theorem c1_choose_activity_priority (w : WeatherState) (e : Entity)
    (d1 d2 : ℚ) :
    (w.is_dangerous → d1 < e.personality.caution →
       choose_activity w e d1 d2 = ActivityType.SEEKING_SHELTER) ∧
    (¬ (w.is_dangerous ∧ d1 < e.personality.caution) →
       (e.energy < 30 →
          choose_activity w e d1 d2 = ActivityType.RESTING) ∧
       (¬ e.energy < 30 → e.hunger > 70 →
          choose_activity w e d1 d2 = ActivityType.GATHERING) ∧
       (¬ e.energy < 30 → ¬ e.hunger > 70 → e.social_need > 80 →
          choose_activity w e d1 d2 = ActivityType.SOCIALIZING) ∧
       (¬ e.energy < 30 → ¬ e.hunger > 70 → ¬ e.social_need > 80 →
          (d2 < e.personality.industriousness →
             choose_activity w e d1 d2 = ActivityType.BUILDING) ∧
          (¬ d2 < e.personality.industriousness →
             choose_activity w e d1 d2 = ActivityType.GATHERING))) := by
  unfold choose_activity
  refine ⟨fun h1 h2 => by rw [if_pos ⟨h1, h2⟩], fun hn => ?_⟩
  rw [if_neg hn]
  refine ⟨fun h => by rw [if_pos h], fun h1 h2 => ?_, fun h1 h2 h3 => ?_,
    fun h1 h2 h3 => ⟨fun h4 => ?_, fun h4 => ?_⟩⟩
  · rw [if_neg h1, if_pos h2]
  · rw [if_neg h1, if_neg h2, if_pos h3]
  · rw [if_neg h1, if_neg h2, if_neg h3, if_pos h4]
  · rw [if_neg h1, if_neg h2, if_neg h3, if_neg h4]

/-- C1 witness: under benign clear weather, an entity at energy 20 rests. -/
theorem c1_witness :
    choose_activity testWeather { testEntity with energy := 20 } (1/2) (1/2) =
      ActivityType.RESTING :=
  ((c1_choose_activity_priority testWeather
      { testEntity with energy := 20 } (1/2) (1/2)).2 (by decide)).1
    (by norm_num [testEntity])

/-- C5: RESTING sets energy to `min(100, energy + (10 if sheltered else 5) *
weather_modifier)`, where the modifier is 0.5 for dangerous weather, else
0.7 for rain/snow, else 0.9 for cloudy, else 1.0; an entity chosen to rest
by the selection phase has energy < 30, so resting with shelter under
benign CLEAR weather strictly increases energy up to the cap of 100. -/
theorem c5_resting_energy (e : Entity) (w : WeatherState) :
    (perform_resting e w).energy =
      min 100 (e.energy +
        (if e.has_shelter then 10 else 5) * weatherModifier w) ∧
    (w.is_dangerous → weatherModifier w = 1/2) ∧
    (¬ w.is_dangerous →
       (w.type = WeatherType.RAIN ∨ w.type = WeatherType.SNOW) →
       weatherModifier w = 7/10) ∧
    (¬ w.is_dangerous →
       ¬ (w.type = WeatherType.RAIN ∨ w.type = WeatherType.SNOW) →
       w.type = WeatherType.CLOUDY → weatherModifier w = 9/10) ∧
    (¬ w.is_dangerous →
       ¬ (w.type = WeatherType.RAIN ∨ w.type = WeatherType.SNOW) →
       ¬ w.type = WeatherType.CLOUDY → weatherModifier w = 1) ∧
    (∀ d1 d2, choose_activity w e d1 d2 = ActivityType.RESTING →
       e.energy < 30) ∧
    (¬ w.is_dangerous → w.type = WeatherType.CLEAR →
       e.has_shelter = true → e.energy < 100 →
       e.energy < (perform_resting e w).energy) := by
  have hmod1 : ¬ w.is_dangerous → w.type = WeatherType.CLEAR →
      weatherModifier w = 1 := by
    intro hd ht
    unfold weatherModifier
    rw [if_neg hd, if_neg (by simp [ht]), if_neg (by simp [ht])]
  refine ⟨rfl, fun h => by rw [weatherModifier, if_pos h], ?_, ?_, ?_, ?_, ?_⟩
  · intro hd ht
    rw [weatherModifier, if_neg hd, if_pos ht]
  · intro hd ht hc
    rw [weatherModifier, if_neg hd, if_neg ht, if_pos hc]
  · intro hd ht hc
    rw [weatherModifier, if_neg hd, if_neg ht, if_neg hc]
  · intro d1 d2 h
    unfold choose_activity at h
    split_ifs at h
    simp_all
  · intro hd ht hs he
    unfold perform_resting
    simp only [hs, if_true, hmod1 hd ht]
    have h1 : e.energy < e.energy + 10 * 1 := by linarith
    exact lt_min (by linarith) h1

/-- Concrete sheltered entity at energy 50, for the C5 witness. -/
def restEntity : Entity :=
  { name := "Alice", position := ⟨0, 0⟩,
    personality := ⟨1/2, 1/2, 1/2, 1/2⟩,
    energy := 50, hunger := 0, social_need := 0, temperature := 37,
    inventory := fun _ => 0, relationships := [],
    current_activity := none, has_shelter := true }

/-- C5 witness: a sheltered entity at energy 50 resting under benign CLEAR
weather ends the step at energy 60. -/
theorem c5_witness :
    (perform_resting restEntity testWeather).energy = 60 := by
  have h := c5_resting_energy restEntity testWeather
  have hwm : weatherModifier testWeather = 1 :=
    h.2.2.2.2.1 (by decide) (by decide) (by decide)
  rw [h.1, hwm]
  show min 100 (50 + (if true = true then 10 else 5) * 1) = 60
  norm_num [min_def]

lemma initialResources_nonneg (b : BiomeType) (r : ResourceType) :
    0 ≤ initialResources b r := by
  cases b <;> cases r <;> norm_num [initialResources]

lemma regenSeasonMod_nonneg (s : Season) : 0 ≤ regenSeasonMod s := by
  cases s <;> norm_num [regenSeasonMod]

lemma regenWeatherMod_nonneg (t : WeatherType) : 0 ≤ regenWeatherMod t := by
  cases t <;> norm_num [regenWeatherMod]

/-- The invariant of C2: the biome is fixed and every stock lies in
`[0, biome_max]`. -/
def TileInv (b : BiomeType) (t : Tile) : Prop :=
  t.biome = b ∧ ∀ r, 0 ≤ t.resources r ∧ t.resources r ≤ initialResources b r

lemma applyOp_inv {b : BiomeType} {t : Tile} {op : TileOp}
    (ht : TileInv b t) (hop : ValidOp op) : TileInv b (applyOp t op) := by
  obtain ⟨hb, hres⟩ := ht
  cases op with
  | gatherOp draws wm =>
      obtain ⟨hwm, hd⟩ := hop
      refine ⟨hb, fun r => ?_⟩
      obtain ⟨h0, h1⟩ := hres r
      simp only [applyOp, Tile.gather_resources]
      split_ifs with h
      · have hmin1 : min (draws r * 10 * wm) (t.resources r) ≤ t.resources r :=
          min_le_right _ _
        have hmin0 : 0 ≤ min (draws r * 10 * wm) (t.resources r) :=
          le_min (mul_nonneg (mul_nonneg (hd r) (by norm_num)) hwm)
            (le_of_lt h)
        constructor
        · linarith
        · linarith
      · constructor
        · linarith
        · linarith
  | regenOp draws weather season =>
      have hd : ∀ r, 0 ≤ draws r := hop
      refine ⟨hb, fun r => ?_⟩
      obtain ⟨h0, h1⟩ := hres r
      have hmod : 0 ≤ regenSeasonMod season * regenWeatherMod weather.type :=
        mul_nonneg (regenSeasonMod_nonneg season)
          (regenWeatherMod_nonneg weather.type)
      simp only [applyOp, Tile.regenerate_resources, hb]
      split_ifs with h
      · constructor
        · exact le_min (initialResources_nonneg b r)
            (by have := mul_nonneg (mul_nonneg (hd r) (by norm_num : (0:ℚ) ≤ 5)) hmod; linarith)
        · exact min_le_left _ _
      · exact ⟨h0, h1⟩

lemma applyOps_inv (b : BiomeType) (ops : List TileOp) (h : ValidOps ops) :
    ∀ t : Tile, TileInv b t → TileInv b (applyOps ops t) := by
  induction ops with
  | nil => intro t ht; exact ht
  | cons op rest ih =>
      intro t ht
      have hop : ValidOp op := h op (List.mem_cons_self op rest)
      have hrest : ValidOps rest := fun o ho => h o (List.mem_cons_of_mem op ho)
      exact ih hrest (applyOp t op) (applyOp_inv ht hop)

/-- C2: starting from a freshly constructed tile, after any finite sequence
of gather and regenerate calls with non-negative draws and non-negative
weather modifiers, every resource stock satisfies
`0 ≤ stock ≤ biome_max(resource)` where `biome_max` is the biome's initial
allocation (0 for absent types). -/
theorem c2_tile_stock_bounds (b : BiomeType) (ops : List TileOp)
    (h : ValidOps ops) (r : ResourceType) :
    0 ≤ (applyOps ops (Tile.new b)).resources r ∧
    (applyOps ops (Tile.new b)).resources r ≤ initialResources b r :=
  (applyOps_inv b ops h (Tile.new b)
    ⟨rfl, fun r => ⟨initialResources_nonneg b r, le_refl _⟩⟩).2 r

/-- C2 witness: a forest tile, after a gather with draw 1/2 and modifier 1
followed by a regeneration under benign clear weather in spring, has its
wood stock in [0, 100]. -/
theorem c2_witness :
    0 ≤ (applyOps
          [TileOp.gatherOp (fun _ => 1/2) 1,
           TileOp.regenOp (fun _ => 1/2) testWeather Season.SPRING]
          (Tile.new BiomeType.FOREST)).resources ResourceType.WOOD ∧
    (applyOps
          [TileOp.gatherOp (fun _ => 1/2) 1,
           TileOp.regenOp (fun _ => 1/2) testWeather Season.SPRING]
          (Tile.new BiomeType.FOREST)).resources ResourceType.WOOD ≤
      initialResources BiomeType.FOREST ResourceType.WOOD := by
  apply c2_tile_stock_bounds
  intro op hop
  simp only [List.mem_cons, List.not_mem_nil, or_false] at hop
  rcases hop with h | h <;> subst h
  · exact ⟨by norm_num, fun r => by norm_num⟩
  · exact fun r => by norm_num

/-- C9: the per-entity movement step of the world tick (the only position
mutation in src/combined.py's `World.update`): when the 0.3-probability
draw fires, the entity moves one random step per axis, clamped into
`[0, width-1] × [0, height-1]`; an in-bounds position stays in bounds
whether or not the move fires, and an entity at the left edge x = 0 taking
a leftward step stays at x = 0. -/
theorem c9_movement_clamped (width height : ℤ) (p : Position) (draw : ℚ)
    (dx dy : ℤ) (hW : 1 ≤ width) (hH : 1 ≤ height)
    (hx0 : 0 ≤ p.x) (hx1 : p.x ≤ width - 1)
    (hy0 : 0 ≤ p.y) (hy1 : p.y ≤ height - 1) :
    (0 ≤ (Combined.moveStep width height p draw dx dy).x ∧
     (Combined.moveStep width height p draw dx dy).x ≤ width - 1 ∧
     0 ≤ (Combined.moveStep width height p draw dx dy).y ∧
     (Combined.moveStep width height p draw dx dy).y ≤ height - 1) ∧
    (p.x = 0 → draw < 3/10 → dx = -1 →
       (Combined.moveStep width height p draw dx dy).x = 0) := by
  unfold Combined.moveStep
  constructor
  · split_ifs with h
    · refine ⟨le_max_left _ _, ?_, le_max_left _ _, ?_⟩
      · exact max_le (by omega) (min_le_left _ _)
      · exact max_le (by omega) (min_le_left _ _)
    · exact ⟨hx0, hx1, hy0, hy1⟩
  · intro hx hd hdx
    rw [if_pos hd]
    simp only [hx, hdx]
    have h1 : min (width - 1) ((0 : ℤ) + -1) = -1 :=
      min_eq_right (by omega)
    rw [h1]
    exact max_eq_left (by omega)

/-- C9 witness: in a 5×5 world, an entity at the left edge (0, 2) taking a
leftward step stays at x = 0, and the resulting position is in bounds. -/
theorem c9_witness :
    (Combined.moveStep 5 5 ⟨0, 2⟩ (1/10) (-1) 0).x = 0 ∧
    0 ≤ (Combined.moveStep 5 5 ⟨0, 2⟩ (1/10) (-1) 0).y ∧
    (Combined.moveStep 5 5 ⟨0, 2⟩ (1/10) (-1) 0).y ≤ 4 := by
  have h := c9_movement_clamped 5 5 ⟨0, 2⟩ (1/10) (-1) 0
    (by norm_num) (by norm_num) (by norm_num) (by norm_num) (by norm_num)
    (by norm_num)
  exact ⟨h.2 rfl (by norm_num) rfl, h.1.2.2.1, h.1.2.2.2⟩

/-- C10: `add_entity` unconditionally appends with no name-uniqueness
validation, so two live entities may share a name; and the SOCIALIZING
relationship update is keyed by name, so the contributions of two distinct
same-named partners land in one single relationship entry. -/
theorem c10_add_entity_name_conflation :
    (∀ (w : World) (e : Entity), (w.add_entity e).entities = w.entities ++ [e]) ∧
    (∀ (wst : WeatherState) (e o1 o2 : Entity),
       ¬ wst.is_dangerous → o2.name = o1.name → e.relationships = [] →
       (perform_socializing wst [o1, o2] e).relationships =
         [(o1.name,
           e.compatibility o1 * (1/10) * weatherModifier wst +
             e.compatibility o2 * (1/10) * weatherModifier wst)]) := by
  constructor
  · intro w e; rfl
  · intro wst e o1 o2 hd hname hrel
    unfold perform_socializing
    rw [if_pos (Or.inl hd)]
    simp [List.foldl, Entity.compatibility, hrel, updateRel, hname]

/-- Concrete same-named entity (sociability 1/2), for the C10 witness. -/
def bob1 : Entity :=
  { name := "Bob", position := ⟨0, 0⟩,
    personality := ⟨1/2, 1/2, 1/2, 1/2⟩,
    energy := 100, hunger := 0, social_need := 0, temperature := 37,
    inventory := fun _ => 0, relationships := [],
    current_activity := none, has_shelter := false }

/-- Concrete second entity with the same name but different traits, for the
C10 witness. -/
def bob2 : Entity :=
  { name := "Bob", position := ⟨1, 0⟩,
    personality := ⟨1/4, 1/2, 1/2, 1/2⟩,
    energy := 100, hunger := 0, social_need := 0, temperature := 37,
    inventory := fun _ => 0, relationships := [],
    current_activity := none, has_shelter := false }

/-- C10 witness: socializing with two distinct nearby entities that share
the name "Bob" produces one single merged relationship entry. -/
theorem c10_witness :
    (perform_socializing testWeather [bob1, bob2] testEntity).relationships =
      [(bob1.name,
        testEntity.compatibility bob1 * (1/10) * weatherModifier testWeather +
          testEntity.compatibility bob2 * (1/10) *
            weatherModifier testWeather)] :=
  c10_add_entity_name_conflation.2 testWeather testEntity bob1 bob2
    (by decide) rfl rfl

lemma clampIdx_toNat_lt {c B : ℤ} (hB : 1 ≤ B) :
    (clampIdx c B).toNat < B.toNat := by
  have h1 : clampIdx c B ≤ B - 1 :=
    max_le (by omega) (min_le_right _ _)
  have h2 : 0 ≤ clampIdx c B := le_max_left _ _
  omega

lemma gridGet_isSome {grid : List (List Tile)} {W H : ℤ}
    (hwf : GridWF grid W H) {y x : ℕ}
    (hy : y < H.toNat) (hx : x < W.toNat) :
    ∃ t, gridGet grid y x = some t := by
  obtain ⟨hlen, hrow⟩ := hwf
  have hy' : y < grid.length := by omega
  have hrowget : grid.get? y = some (grid.get ⟨y, hy'⟩) :=
    List.get?_eq_get hy'
  have hmem : grid.get ⟨y, hy'⟩ ∈ grid := List.get_mem grid y hy'
  have hxlen : x < (grid.get ⟨y, hy'⟩).length := by
    rw [hrow _ hmem]; omega
  refine ⟨(grid.get ⟨y, hy'⟩).get ⟨x, hxlen⟩, ?_⟩
  unfold gridGet
  rw [hrowget]
  exact List.get?_eq_get hxlen

lemma gridSet_wf {grid : List (List Tile)} {W H : ℤ}
    (hwf : GridWF grid W H) {y : ℕ} (hy : y < H.toNat)
    (x : ℕ) (t : Tile) : GridWF (gridSet grid y x t) W H := by
  obtain ⟨hlen, hrow⟩ := hwf
  have hy' : y < grid.length := by omega
  constructor
  · simp [gridSet, List.length_set, hlen]
  · intro row hmem
    unfold gridSet at hmem
    rcases List.mem_or_eq_of_mem_set hmem with h | h
    · exact hrow row h
    · subst h
      rw [List.length_set]
      have hgd : grid.getD y [] = grid[y] := List.getD_eq_getElem _ _ hy'
      rw [hgd]
      exact hrow _ (List.getElem_mem hy')

lemma entity_update_some (W H : ℤ) (weather : WeatherState)
    (others : List Entity) (grid : List (List Tile)) (e : Entity)
    (r : EntityRand) (hW : 1 ≤ W) (hH : 1 ≤ H) (hwf : GridWF grid W H) :
    ∃ e2 grid2, e.update W H weather others grid r = some (e2, grid2) ∧
      GridWF grid2 W H := by
  unfold Entity.update
  rcases hact : choose_activity weather
      ((e.handle_weather_effects weather).needs_decay) r.cautionDraw
      r.industryDraw with _ | _ | _ | _ | _ <;>
    simp only [hact]
  case GATHERING =>
    obtain ⟨tile, htile⟩ := gridGet_isSome hwf
      (clampIdx_toNat_lt hH) (clampIdx_toNat_lt hW)
    rw [htile]
    exact ⟨_, _, rfl, gridSet_wf hwf (clampIdx_toNat_lt hH) _ _⟩
  case RESTING => exact ⟨_, _, rfl, hwf⟩
  case SOCIALIZING => exact ⟨_, _, rfl, hwf⟩
  case BUILDING => exact ⟨_, _, rfl, hwf⟩
  case SEEKING_SHELTER => exact ⟨_, _, rfl, hwf⟩

lemma updateEntities_some (W H : ℤ) (weather : WeatherState)
    (rand : ℕ → EntityRand) (hW : 1 ≤ W) (hH : 1 ≤ H) :
    ∀ (todo : List Entity) (i : ℕ) (done : List Entity)
      (grid : List (List Tile)), GridWF grid W H →
      ∃ ents grid2,
        updateEntities W H weather rand i done todo grid =
          some (ents, grid2) ∧ GridWF grid2 W H := by
  intro todo
  induction todo with
  | nil => exact fun i done grid hwf => ⟨done, grid, rfl, hwf⟩
  | cons e todo ih =>
      intro i done grid hwf
      obtain ⟨e2, grid2, hstep, hwf2⟩ :=
        entity_update_some W H weather (done ++ todo) grid e (rand i)
          hW hH hwf
      obtain ⟨ents, grid3, hrec, hwf3⟩ :=
        ih (i + 1) (done ++ [e2]) grid2 hwf2
      refine ⟨ents, grid3, ?_, hwf3⟩
      simp only [updateEntities, hstep, hrec]

lemma regenRow_length (weather : WeatherState) (season : Season)
    (ds : ℕ → ResourceType → ℚ) :
    ∀ (j : ℕ) (row : List Tile),
      (regenRow weather season ds j row).length = row.length := by
  intro j row
  induction row generalizing j with
  | nil => rfl
  | cons t ts ih => simp [regenRow, ih]

lemma regenAll_wf (weather : WeatherState) (season : Season)
    (ds : ℕ → ℕ → ResourceType → ℚ) :
    ∀ (grid : List (List Tile)) (i : ℕ),
      (regenAll weather season ds i grid).length = grid.length ∧
      (∀ row' ∈ regenAll weather season ds i grid,
        ∃ row ∈ grid, row'.length = row.length) := by
  intro grid
  induction grid with
  | nil => exact fun i => ⟨rfl, fun row' h => absurd h (List.not_mem_nil _)⟩
  | cons row rows ih =>
      intro i
      obtain ⟨hlen, hmem⟩ := ih (i + 1)
      constructor
      · simp [regenAll, hlen]
      · intro row' h
        simp only [regenAll, List.mem_cons] at h
        rcases h with h | h
        · exact ⟨row, List.mem_cons_self _ _,
            by rw [h]; exact regenRow_length weather season (ds i) 0 row⟩
        · obtain ⟨r0, hr0, hr1⟩ := hmem row' h
          exact ⟨r0, List.mem_cons_of_mem _ hr0, hr1⟩

lemma world_update_some {w : World} (hwf : w.WF) (o : Oracle) :
    ∃ w2, w.update o = some w2 ∧ w2.WF := by
  obtain ⟨hW, hH, hgrid⟩ := hwf
  obtain ⟨ents, grid2, hup, hwf2⟩ :=
    updateEntities_some w.width w.height
      (w.climate.update o.newWeather).current_weather o.entityRand hW hH
      w.entities 0 [] w.grid hgrid
  unfold World.update
  dsimp only
  rw [hup]
  refine ⟨_, rfl, hW, hH, ?_⟩
  split_ifs with h
  · obtain ⟨hlen2, hrow2⟩ := hwf2
    obtain ⟨hlen3, hmem3⟩ :=
      regenAll_wf (w.climate.update o.newWeather).current_weather
        (w.climate.update o.newWeather).current_season o.regenDraws grid2 0
    constructor
    · rw [hlen3, hlen2]
    · intro row' hr'
      obtain ⟨row, hrow, hrlen⟩ := hmem3 row' hr'
      rw [hrlen]
      exact hrow2 row hrow
  · exact hwf2

/-- C6 counterexample: a degenerate world built with `World(0, 1)` is
constructible, but `get_tile` at position (0, 0) indexes out of range (the
clamp yields column 0 of an empty row, the Python code raises
`IndexError`), returning no tile — refuting the claim that `get_tile`
never indexes out of range for arbitrary integer dimensions. -/
theorem c6_counterexample :
    (World.new 0 1 (fun _ _ => BiomeType.FOREST) testClimate).get_tile
      ⟨0, 0⟩ = none := rfl

/-- C6 (amended): `World(width, height)` is constructible for every integer
pair, degenerate dimensions giving a grid with no tiles; and for every
world with width ≥ 1 and height ≥ 1 whose grid has the constructed shape,
`get_tile` clamps any integer position into bounds and always returns a
tile, and `World.update` never fails and preserves the well-formed shape,
so it can be called repeatedly. -/
theorem c6_get_tile_update_total (W H : ℤ) (bo : ℕ → ℕ → BiomeType)
    (c0 : Climate) :
    ((World.new W H bo c0).grid.length = H.toNat ∧
      ∀ row ∈ (World.new W H bo c0).grid, row.length = W.toNat) ∧
    (1 ≤ W → 1 ≤ H → (World.new W H bo c0).WF) ∧
    (∀ w : World, w.WF →
       (∀ p : Position, ∃ t, w.get_tile p = some t) ∧
       (∀ o : Oracle, ∃ w2, w.update o = some w2 ∧ w2.WF)) := by
  have hshape : (World.new W H bo c0).grid.length = H.toNat ∧
      ∀ row ∈ (World.new W H bo c0).grid, row.length = W.toNat := by
    constructor
    · simp [World.new]
    · intro row hrow
      simp only [World.new, List.mem_map] at hrow
      obtain ⟨i, _, hi⟩ := hrow
      simp [← hi]
  refine ⟨hshape, fun hW hH => ⟨hW, hH, hshape⟩, fun w hwf => ⟨?_, ?_⟩⟩
  · intro p
    obtain ⟨hW, hH, hgrid⟩ := hwf
    exact gridGet_isSome hgrid (clampIdx_toNat_lt hH) (clampIdx_toNat_lt hW)
  · exact fun o => world_update_some hwf o

/-- Concrete oracle (benign weather, fixed draws), for the C6 witness. -/
def testOracle : Oracle :=
  { newWeather := testWeather,
    entityRand := fun _ => ⟨1/2, 1/2, fun _ => 1/2⟩,
    regenDraws := fun _ _ _ => 1/2 }

/-- C6 witness: a 2×2 world is well-formed, `get_tile` answers at the
wildly out-of-range position (7, -3), and one `World.update` tick succeeds
and yields a well-formed world. -/
theorem c6_witness :
    (∃ t, (World.new 2 2 (fun _ _ => BiomeType.FOREST)
             testClimate).get_tile ⟨7, -3⟩ = some t) ∧
    (∃ w2, (World.new 2 2 (fun _ _ => BiomeType.FOREST)
             testClimate).update testOracle = some w2 ∧ w2.WF) := by
  have h := c6_get_tile_update_total 2 2 (fun _ _ => BiomeType.FOREST)
    testClimate
  have hwf : (World.new 2 2 (fun _ _ => BiomeType.FOREST) testClimate).WF :=
    h.2.1 (by norm_num) (by norm_num)
  exact ⟨(h.2.2 _ hwf).1 ⟨7, -3⟩, (h.2.2 _ hwf).2 testOracle⟩

end WorldSim
